import Mathlib

/-!
Shallow embedding of the payload state orchestration core of cirrus-geo
(`src/cirrus/lib/process_payload.py`), together with a spec-modelled
Topic Publisher (its implementation lives outside the provided sources;
only its tests are available).

Python dicts are modelled by structures whose `Option` fields record
key presence; exceptions are modelled by `Except` or by explicit result
constructors; the external state store, execution engine and blob store
are modelled by oracle records whose fields give each call's outcome,
and by an explicit trace of the calls made (`Action`).
-/

namespace Cirrus

/-- Does the second char list start with the first? -/
def startsWithChars : List Char → List Char → Bool
  | [], _ => true
  | _ :: _, [] => false
  | a :: as, b :: bs => a = b && startsWithChars as bs

/-- Does the pattern occur at some position of the char list? -/
def containsSubAux (pat : List Char) : List Char → Bool
  | [] => startsWithChars pat []
  | c :: cs => startsWithChars pat (c :: cs) || containsSubAux pat cs

/-- Python's substring containment `pat in s` for strings. -/
def containsSub (s pat : String) : Bool :=
  containsSubAux pat.data s.data

/-- One feature record: `id` (required where used), optional `collection`,
and a flag recording whether a `links` key is present (its contents are
never inspected by this core). -/
structure Feature where
  id : String
  collection : Option String
  links : Bool
deriving DecidableEq, Repr

/-- A chain filter predicate, abstracting the jsonpath filter expression
`$.features[?(<chain_filter>)]`: which features match is all the core
observes of it. -/
def FilterPred : Type := Feature → Bool

/-- A raw process-step mapping, before construction-time validation.
`hasUploadOptions`/`hasTasks` record key presence (contents unused);
`workflow` is `none` when the key is missing; `replace` models
`process.get("replace", False)`. -/
structure RawStep where
  hasUploadOptions : Bool
  hasTasks : Bool
  workflow : Option String
  replace : Bool
  chainFilter : Option FilterPred
  collections : Option String

/-- An entry of the `process` array: a single step mapping, or a list of
step mappings (fan-out position). -/
inductive RawEntry
  | one (s : RawStep)
  | many (ss : List RawStep)

/-- The `process` field of a raw payload: missing, present but not a
list, or a list of entries. -/
inductive RawProc
  | absent
  | notList
  | steps (es : List RawEntry)

/-- A raw inbound payload mapping (pre-validation). -/
structure RawPayload where
  process : RawProc
  features : Option (List Feature)
  id : Option String

/-- The exceptions `ProcessPayload.__init__`/`set_id` can raise, one
constructor per raise site (KeyError/TypeError are the implicit ones). -/
inductive PPError
  | missingProcess
  | processNotListOrEmpty
  | noFeaturesForId
  | stepNotMapping
  | keyErrorWorkflow
  | missingUploadOptions
  | missingWorkflow
  | missingTasks
  | missingIdKey
  | invalidId (i : String)
deriving DecidableEq, Repr

/-- Sort a list of strings ascending, as Python `sorted`. -/
def sortStrings (l : List String) : List String :=
  List.insertionSort (· ≤ ·) l

/-- `set_id`'s identity computation, from the active `process` entry and
the feature list: fails when there are no features; collections component
is the step's `collections` override, else the sorted, slash-joined set of
distinct feature `collection` values (`"none"` when empty); items component
is the sorted slash-join of feature ids. A list-valued active entry makes
`self.process["workflow"]` a TypeError; a step without `workflow` makes it
a KeyError. -/
def setIdResult (entry : RawEntry) (features : List Feature) : Except PPError String :=
  if features = [] then .error .noFeaturesForId
  else
    match entry with
    | .many _ => .error .stepNotMapping
    | .one s =>
      let collectionsStr :=
        match s.collections with
        | some c => c
        | none =>
          let cols := sortStrings (features.filterMap (·.collection)).dedup
          if cols = [] then "none" else String.intercalate "/" cols
      match s.workflow with
      | none => .error .keyErrorWorkflow
      | some w =>
        .ok (collectionsStr ++ "/workflow-" ++ w ++ "/"
              ++ String.intercalate "/" (sortStrings (features.map (·.id))))

/-- `ProcessPayload.set_id` as a transformation of the `id` field: a no-op
when an id already exists, otherwise derives one via `setIdResult`. -/
def set_id (entry : RawEntry) (features : List Feature) (i : Option String) :
    Except PPError (Option String) :=
  match i with
  | some i0 => .ok (some i0)
  | none => (setIdResult entry features).map some

/-- A validated active process step (presence of `upload_options`,
`workflow`, `tasks` has been checked; only these fields are read later). -/
structure Step where
  workflow : String
  replace : Bool
  chainFilter : Option FilterPred
  collections : Option String

/-- A successfully constructed `ProcessPayload`: `id` always present,
active step validated, `rest` the remaining `process` entries, features
normalized to carry `links`. -/
structure ProcessPayload where
  id : String
  step : Step
  rest : List RawEntry
  features : List Feature

/-- The `id` available after the `set_id`-if-missing stage of
`ProcessPayload.__init__`: the raw id when present, else the derived one
when requested (propagating `set_id`'s errors), else still absent. -/
def computeIdOpt (rawId : Option String) (setIdIfMissing : Bool) (entry : RawEntry)
    (features : List Feature) : Except PPError (Option String) :=
  match rawId with
  | some i => .ok (some i)
  | none =>
    if setIdIfMissing then (setIdResult entry features).map some else .ok none

/-- `ProcessPayload.__init__`, check for check in source order: `process`
present, a non-empty list; `set_id` when `id` missing and requested
(its errors surface here, before the step-key checks); the active entry
has `upload_options`, `workflow`, `tasks` (a list-valued entry fails the
`"upload_options" in self.process` membership test); then `self["id"]`
(KeyError when still missing) must contain `workflow-`; finally features
are normalized to carry `links`. -/
def ProcessPayload.init (raw : RawPayload) (setIdIfMissing : Bool) :
    Except PPError ProcessPayload :=
  match raw.process with
  | .absent => .error .missingProcess
  | .notList => .error .processNotListOrEmpty
  | .steps [] => .error .processNotListOrEmpty
  | .steps (entry :: rest) =>
    let features := (raw.features).getD []
    match computeIdOpt raw.id setIdIfMissing entry features with
    | .error e => .error e
    | .ok idOpt =>
      match entry with
      | .many _ => .error .missingUploadOptions
      | .one s =>
        if !s.hasUploadOptions then .error .missingUploadOptions
        else
          match s.workflow with
          | none => .error .missingWorkflow
          | some w =>
            if !s.hasTasks then .error .missingTasks
            else
              match idOpt with
              | none => .error .missingIdKey
              | some i =>
                if containsSub i "workflow-" then
                  .ok { id := i
                        step := { workflow := w, replace := s.replace
                                  chainFilter := s.chainFilter
                                  collections := s.collections }
                        rest := rest
                        features := features.map (fun f => { f with links := true }) }
                else .error (.invalidId i)

/-- Length of the payload's `process` array (active step plus the rest). -/
def processLen (p : ProcessPayload) : Nat :=
  p.rest.length + 1

/-- `ProcessPayload.next_payloads`, collected into a list: empty when
`process` has at most one entry; otherwise one successor per step of the
second entry (a mapping yields one, a list yields one per element). Each
successor is a deep copy with `id` deleted, the consumed step popped, the
chosen step promoted to the front, and — when the chosen step declares a
`chain_filter` — features restricted to the predicate's matches over the
parent's (copied) feature list. -/
def nextPayloads (p : ProcessPayload) : List RawPayload :=
  match p.rest with
  | [] => []
  | entry :: rest2 =>
    let nextSteps :=
      match entry with
      | .one s => [s]
      | .many ss => ss
    nextSteps.map fun s =>
      { process := .steps (.one s :: rest2)
        features := some
          (match s.chainFilter with
           | some f => p.features.filter f
           | none => p.features)
        id := none }

/-- The serialized-payload inline size limit (bytes). -/
def MAX_PAYLOAD_LENGTH : Nat := 250000

/-- The RuntimeError message for an oversized payload with no bucket. -/
def oversizeMsg (payloadLength : Nat) : String :=
  "No payload bucket defined and payload too large: length "
    ++ toString payloadLength ++ " (max " ++ toString MAX_PAYLOAD_LENGTH
    ++ "). To enable uploads oversized payloads define `CIRRUS_PAYLOAD_BUCKET`."

/-- The S3 url `upload_to_s3` writes to, for a fresh uuid. -/
def uploadUrl (bucket uuid : String) : String :=
  "s3://" ++ bucket ++ "/payloads/" ++ uuid ++ ".json"

/-- Result of `get_payload`: the envelope inline, or a pointer object
holding only a `url`. -/
inductive PayloadOut
  | inline (p : ProcessPayload)
  | pointer (url : String)

/-- `ProcessPayload.get_payload`. The encoded length of `json.dumps` and
the fresh uuid are oracle inputs; `bucketEnv` is `CIRRUS_PAYLOAD_BUCKET`
(`none` unset, `some ""` set but falsy, as `os.getenv`). Inline when the
encoded size is within `MAX_PAYLOAD_LENGTH`; else RuntimeError when no
bucket; else upload and return `{url}`. -/
def get_payload (p : ProcessPayload) (encodedLen : Nat) (bucketEnv : Option String)
    (uuid : String) : Except String PayloadOut :=
  if encodedLen ≤ MAX_PAYLOAD_LENGTH then .ok (.inline p)
  else if bucketEnv.getD "" = "" then .error (oversizeMsg encodedLen)
  else .ok (.pointer (uploadUrl (bucketEnv.getD "") uuid))

/-- An exception escaping a launch step: a botocore `ClientError` carrying
its error code, or any other exception carrying a message. -/
inductive PyExc
  | clientError (code : String)
  | otherExc (msg : String)
deriving DecidableEq, Repr

/-- `StateEnum`: the lifecycle states (per the spec's Data Model section;
`cirrus.lib.enums` is outside the provided sources, but the orchestration
logic only distinguishes FAILED/ABORTED/absent from the rest). -/
inductive StateEnum
  | PROCESSING
  | CLAIMED
  | COMPLETED
  | FAILED
  | ABORTED
  | INVALID
deriving DecidableEq, Repr

/-- One external call made during launch/orchestration, in order: blob
uploads, state-store transitions (claim, started, skipping, failed,
duplicated, state-based skip) and execution-engine starts. -/
inductive Action
  | uploadJson (url : String)
  | claimProcessing (id url arn : String)
  | startExecution (arn name : String)
  | startedProcessing (id execArn url : String)
  | skipping (id : String)
  | failed (id msg : String)
  | duplicated (id : String)
  | skippingState (id : String) (st : StateEnum)
deriving DecidableEq, Repr

/-- Is this action a `wfem.failed` (record-FAILED) transition? -/
def Action.isFailed : Action → Bool
  | .failed _ _ => true
  | _ => false

/-- Is this action a `start_execution` engine call? -/
def Action.isStart : Action → Bool
  | .startExecution _ _ => true
  | _ => false

/-- Outcome of `ProcessPayload.__call__`: a normal return (the payload id,
or `None` for the conditional-claim skip), the raised `TerminalError`, or
any other exception re-raised to the caller. -/
inductive LaunchResult
  | returned (i : Option String)
  | terminalError
  | raised (e : PyExc)
deriving DecidableEq, Repr

/-- Oracle for one launch attempt: environment configuration plus the
outcome of each fallible external call, in the order the code makes them
(`none`/`.ok` means the call succeeds; `claimResult`'s success carries the
execution name the claim returns). -/
structure LaunchEnv where
  payloadBucket : Option String
  baseWorkflowArn : Option String
  uploadResult : Option PyExc
  claimResult : Except PyExc String
  startResult : Option PyExc
  startedResult : Option PyExc

/-- The exception handlers of `ProcessPayload.__call__`. A `ClientError`
is dispatched on its code: `ConditionalCheckFailedException` records a
skipping event and returns `None`; `StateMachineDoesNotExist` records
FAILED and raises `TerminalError`; any other code is re-raised bare — the
sibling `except Exception` clause of the same `try` does NOT catch it, so
nothing is recorded. A non-`ClientError` exception records FAILED and
re-raises. -/
def handleLaunchExc (i : String) (trace : List Action) (e : PyExc) :
    LaunchResult × List Action :=
  match e with
  | .clientError c =>
    if c = "ConditionalCheckFailedException" then
      (.returned none, trace ++ [.skipping i])
    else if c = "StateMachineDoesNotExist" then
      (.terminalError, trace ++ [.failed i c])
    else (.raised (.clientError c), trace)
  | .otherExc m =>
    (.raised (.otherExc m), trace ++ [.failed i ("failed starting workflow (" ++ m ++ ")")])

/-- `ProcessPayload.__call__`: checks `CIRRUS_PAYLOAD_BUCKET` (ValueError
when unset or empty, raised before the `try`, nothing recorded), resolves
the target arn from `CIRRUS_BASE_WORKFLOW_ARN` (TypeError when unset),
then uploads the input, claims processing, starts the execution and
records it as started, dispatching the first failure to the handlers.
Returns the result together with the trace of external calls made. -/
def launch (p : ProcessPayload) (env : LaunchEnv) : LaunchResult × List Action :=
  if env.payloadBucket.getD "" = "" then
    (.raised (.otherExc "env var CIRRUS_PAYLOAD_BUCKET must be defined"), [])
  else
    match env.baseWorkflowArn with
    | none => (.raised (.otherExc "unsupported operand type for +: NoneType and str"), [])
    | some base =>
      let bucket := env.payloadBucket.getD ""
      let arn := base ++ p.step.workflow
      let url := "s3://" ++ bucket ++ "/" ++ p.id ++ "/input.json"
      let t0 := [Action.uploadJson url]
      match env.uploadResult with
      | some e => handleLaunchExc p.id t0 e
      | none =>
        let t1 := t0 ++ [Action.claimProcessing p.id url arn]
        match env.claimResult with
        | .error e => handleLaunchExc p.id t1 e
        | .ok name =>
          let t2 := t1 ++ [Action.startExecution arn name]
          match env.startResult with
          | some e => handleLaunchExc p.id t2 e
          | none =>
            let t3 := t2 ++ [Action.startedProcessing p.id (arn ++ ":" ++ name) url]
            match env.startedResult with
            | some e => handleLaunchExc p.id t3 e
            | none => (.returned (some p.id), t3)

/-- The first exception arising in the `try` block of a launch, if any. -/
def launchFirstExc (env : LaunchEnv) : Option PyExc :=
  match env.uploadResult with
  | some e => some e
  | none =>
    match env.claimResult with
    | .error e => some e
    | .ok _ =>
      match env.startResult with
      | some e => some e
      | none => env.startedResult

/-- The four result lists of `ProcessPayloads.process`, plus a ghost
record of the payload ids a launch was attempted for (`attempted`) and
the trace of external calls. -/
structure BatchAcc where
  started : List String
  skipped : List String
  dropped : List String
  failed : List String
  attempted : List String
  events : List Action

/-- The empty accumulator `process` starts from. -/
def BatchAcc.empty : BatchAcc :=
  { started := [], skipped := [], dropped := [], failed := []
    attempted := [], events := [] }

/-- Result of `ProcessPayloads.process`: either the four-list mapping, or
an exception propagating out of the loop (the accumulator at that point is
kept for reasoning; the Python caller sees only the exception). -/
inductive BatchResult
  | finished (acc : BatchAcc)
  | raised (e : PyExc) (acc : BatchAcc)

/-- The `attempted` ghost list of a batch result. -/
def BatchResult.attempted : BatchResult → List String
  | .finished acc => acc.attempted
  | .raised _ acc => acc.attempted

/-- The launch-eligibility test of `ProcessPayloads.process`: current
state FAILED, ABORTED or absent, or replace requested. -/
def stateRetryable (st : Option StateEnum) (rep : Bool) : Bool :=
  st = some .FAILED || st = some .ABORTED || st = none || rep

/-- The loop body of `ProcessPayloads.process`, in source order: an id
already in `started`/`skipped`/`failed` is recorded duplicated and
dropped; else when eligible the payload is launched (`TerminalError`
appends to `failed`, a returned id to `started`, `None` to `skipped`, any
other exception propagates immediately); else a state-based skip is
recorded. `envOf` gives each id's launch oracle; `states` the pre-fetched
state lookup. -/
def processGo (envOf : String → LaunchEnv) (states : String → Option StateEnum)
    (replace : Bool) : List ProcessPayload → BatchAcc → BatchResult
  | [], acc => .finished acc
  | p :: rest, acc =>
    if p.id ∈ acc.started ∨ p.id ∈ acc.skipped ∨ p.id ∈ acc.failed then
      processGo envOf states replace rest
        { acc with dropped := acc.dropped ++ [p.id]
                   events := acc.events ++ [.duplicated p.id] }
    else if stateRetryable (states p.id) (replace || p.step.replace) then
      match launch p (envOf p.id) with
      | (r, tr) =>
        let acc1 := { acc with attempted := acc.attempted ++ [p.id]
                               events := acc.events ++ tr }
        match r with
        | .terminalError =>
          processGo envOf states replace rest
            { acc1 with failed := acc1.failed ++ [p.id] }
        | .returned (some rid) =>
          processGo envOf states replace rest
            { acc1 with started := acc1.started ++ [rid] }
        | .returned none =>
          processGo envOf states replace rest
            { acc1 with skipped := acc1.skipped ++ [p.id] }
        | .raised e => .raised e acc1
    else
      processGo envOf states replace rest
        { acc with skipped := acc.skipped ++ [p.id]
                   events := acc.events
                     ++ [.skippingState p.id (((states p.id)).getD .PROCESSING)] }

/-- `ProcessPayloads.process` from the empty accumulator. -/
def processPayloads (envOf : String → LaunchEnv) (states : String → Option StateEnum)
    (replace : Bool) (payloads : List ProcessPayload) : BatchResult :=
  processGo envOf states replace payloads BatchAcc.empty

/-- One SNS message: body and message attributes (name, value). -/
structure SNSMsg where
  body : String
  attrs : List (String × String)
deriving DecidableEq, Repr

/-- Modelled from the spec: the Topic Publisher (`SNSPublisher` in
`cirrus.lib.utils`) is exercised by `tests/lib/test_utils.py` but its
implementation is not among the provided sources. Per the spec, it is the
size-bounded Batch Accumulator specialized to SNS: `buffer` holds pending
items, `sent` the batch publish calls already made to the topic (the
downstream sink), `batchSize` the flush threshold. -/
structure SNSPublisher where
  topicArn : String
  batchSize : Nat
  buffer : List SNSMsg
  sent : List (List SNSMsg)
deriving DecidableEq, Repr

/-- Modelled from the spec: `SNSPublisher.add` — an item whose attribute
mapping has more than 10 entries fails with a validation error before it
is buffered and before any send call; otherwise the item is buffered, and
once the buffer reaches the threshold it is flushed as one batch publish
call. -/
def snsAdd (pub : SNSPublisher) (body : String) (attrs : List (String × String)) :
    Except String SNSPublisher :=
  if 10 < attrs.length then .error "too many message attributes"
  else
    let buf := pub.buffer ++ [{ body := body, attrs := attrs }]
    if pub.batchSize ≤ buf.length then
      .ok { pub with buffer := [], sent := pub.sent ++ [buf] }
    else .ok { pub with buffer := buf }

/-- Modelled from the spec: closing the publisher's scope flushes any
remaining buffered items exactly once (no call when the buffer is empty). -/
def snsClose (pub : SNSPublisher) : SNSPublisher :=
  if pub.buffer = [] then pub
  else { pub with buffer := [], sent := pub.sent ++ [pub.buffer] }

/-- Add a sequence of items, stopping at the first validation error. -/
def snsAddAll (pub : SNSPublisher) (items : List SNSMsg) : Except String SNSPublisher :=
  items.foldlM (fun pb it => snsAdd pb it.body it.attrs) pub

/-- Everything the downstream sink has received. -/
def SNSPublisher.received (pub : SNSPublisher) : List SNSMsg :=
  pub.sent.flatten

/-! ### Helper lemmas and concrete fixtures -/

theorem startsWithChars_self_append (pat r : List Char) :
    startsWithChars pat (pat ++ r) = true := by
  induction pat with
  | nil => rfl
  | cons a as ih => simp [startsWithChars, ih]

theorem containsSubAux_append (pat l r : List Char) :
    containsSubAux pat (l ++ (pat ++ r)) = true := by
  induction l with
  | nil =>
    cases h : pat ++ r with
    | nil => simp_all [containsSubAux, startsWithChars]
    | cons c cs =>
      simp only [List.nil_append, h, containsSubAux]
      rw [← h, startsWithChars_self_append]
      rfl
  | cons c cs ih => simp [containsSubAux, ih]

/-- A string whose char data contains the pattern's data contains the
pattern. -/
theorem containsSub_of_data (s pat : String) (l r : List Char)
    (h : s.data = l ++ (pat.data ++ r)) : containsSub s pat = true := by
  unfold containsSub
  rw [h]
  exact containsSubAux_append _ _ _

/-- Sorting strings is invariant under permutation of the input. -/
theorem sortStrings_perm_eq {l1 l2 : List String} (h : l1.Perm l2) :
    sortStrings l1 = sortStrings l2 :=
  List.eq_of_perm_of_sorted
    ((List.perm_insertionSort _ l1).trans (h.trans (List.perm_insertionSort _ l2).symm))
    (List.sorted_insertionSort _ l1) (List.sorted_insertionSort _ l2)

/-- A concrete feature. -/
def featA : Feature := { id := "itemA", collection := some "c1", links := true }

/-- A second concrete feature. -/
def featB : Feature := { id := "itemB", collection := some "c2", links := true }

/-- A concrete validated active step. -/
def stepM : Step :=
  { workflow := "mirror", replace := false, chainFilter := none, collections := none }

/-- A filter predicate matching nothing. -/
def fNone : FilterPred := fun _ => false

/-- A concrete raw successor step declaring a never-matching chain filter. -/
def stepF : RawStep :=
  { hasUploadOptions := true, hasTasks := true, workflow := some "chain"
    replace := false, chainFilter := some fNone, collections := none }

/-- A concrete single-step payload. -/
def pSingle : ProcessPayload :=
  { id := "c1/workflow-mirror/itemA", step := stepM, rest := [], features := [featA] }

/-- A concrete two-step payload whose successor step filters everything out. -/
def pChain : ProcessPayload :=
  { id := "c1/workflow-mirror/itemA", step := stepM, rest := [.one stepF]
    features := [featA] }

/-! ### Claims -/

/-- C3: a Payload Envelope whose `process` sequence has length 1 gets no
successors: `next_payloads` yields nothing. -/
theorem c3_single_step_no_successors (p : ProcessPayload) (h : processLen p = 1) :
    nextPayloads p = [] := by
  cases hr : p.rest with
  | nil => simp [nextPayloads, hr]
  | cons a l =>
    rw [processLen, hr] at h
    simp at h

/-- Witness for C3 at a concrete single-step payload. -/
theorem c3_single_step_no_successors_witness :
    processLen pSingle = 1 ∧ nextPayloads pSingle = [] :=
  ⟨rfl, c3_single_step_no_successors pSingle rfl⟩

/-- C7: when the successor step declares a `chain_filter` matching none of
the parent's features, `next_payloads` yields that successor with an empty
`features` list, and no error is raised (`nextPayloads` is total). -/
theorem c7_filter_no_match_empty_features (p : ProcessPayload) (s : RawStep)
    (r2 : List RawEntry) (f : FilterPred)
    (hr : p.rest = .one s :: r2) (hf : s.chainFilter = some f)
    (hnone : ∀ x ∈ p.features, f x = false) :
    nextPayloads p =
      [{ process := .steps (.one s :: r2), features := some [], id := none }] := by
  have hfilter : p.features.filter f = [] :=
    List.filter_eq_nil_iff.mpr (fun a ha => by simp [hnone a ha])
  simp [nextPayloads, hr, hf, hfilter]

/-- Witness for C7 at a concrete two-step payload with a never-matching
filter. -/
theorem c7_filter_no_match_empty_features_witness :
    nextPayloads pChain =
      [{ process := .steps [.one stepF], features := some [], id := none }] :=
  c7_filter_no_match_empty_features pChain stepF [] fNone rfl rfl (fun _ _ => rfl)

/-- C4: `get_payload` returns the envelope inline when the encoded size is
within `MAX_PAYLOAD_LENGTH`; above it, with a bucket configured it returns
a pointer object holding only the upload url; above it with no bucket it
fails with a RuntimeError whose message names the actual and the maximum
size. -/
theorem c4_get_payload_encoding (p : ProcessPayload) (encodedLen : Nat)
    (bucketEnv : Option String) (uuid : String) :
    (encodedLen ≤ MAX_PAYLOAD_LENGTH →
        get_payload p encodedLen bucketEnv uuid = .ok (.inline p)) ∧
    (MAX_PAYLOAD_LENGTH < encodedLen → ∀ b, bucketEnv = some b → b ≠ "" →
        get_payload p encodedLen bucketEnv uuid = .ok (.pointer (uploadUrl b uuid))) ∧
    (MAX_PAYLOAD_LENGTH < encodedLen → bucketEnv.getD "" = "" →
        get_payload p encodedLen bucketEnv uuid = .error (oversizeMsg encodedLen) ∧
        containsSub (oversizeMsg encodedLen) (toString encodedLen) = true ∧
        containsSub (oversizeMsg encodedLen) (toString MAX_PAYLOAD_LENGTH) = true) := by
  refine ⟨fun h => by simp [get_payload, h], fun h b hb hbne => ?_, fun h hb => ?_⟩
  · simp [get_payload, Nat.not_le.mpr h, hb, hbne]
  · refine ⟨by simp [get_payload, Nat.not_le.mpr h, hb], ?_, ?_⟩
    · apply containsSub_of_data _ _
        ("No payload bucket defined and payload too large: length ").data
        ((" (max " ++ toString MAX_PAYLOAD_LENGTH
          ++ "). To enable uploads oversized payloads define `CIRRUS_PAYLOAD_BUCKET`.").data)
      simp [oversizeMsg]
    · apply containsSub_of_data _ _
        (("No payload bucket defined and payload too large: length "
          ++ toString encodedLen ++ " (max ").data)
        (("). To enable uploads oversized payloads define `CIRRUS_PAYLOAD_BUCKET`.").data)
      simp [oversizeMsg]

/-- Witness for C4 at concrete sizes: inline at the limit, oversize with
and without a bucket. -/
theorem c4_get_payload_encoding_witness :
    get_payload pSingle 250000 (some "bkt") "u1" = .ok (.inline pSingle) ∧
    get_payload pSingle 250001 (some "bkt") "u1"
      = .ok (.pointer (uploadUrl "bkt" "u1")) ∧
    get_payload pSingle 250001 none "u1" = .error (oversizeMsg 250001) ∧
    containsSub (oversizeMsg 250001) (toString 250001) = true ∧
    containsSub (oversizeMsg 250001) (toString MAX_PAYLOAD_LENGTH) = true := by
  refine ⟨(c4_get_payload_encoding pSingle 250000 (some "bkt") "u1").1 (by decide),
    (c4_get_payload_encoding pSingle 250001 (some "bkt") "u1").2.1 (by decide) "bkt" rfl
      (by decide), ?_⟩
  have h := (c4_get_payload_encoding pSingle 250001 none "u1").2.2 (by decide) rfl
  exact ⟨h.1, h.2.1, h.2.2⟩

/-- C5: identity derivation — `set_id` on a payload that already has an id
is a no-op leaving the id unchanged; running `set_id` twice equals running
it once; and the derived identity is insensitive to the order of the
features (deriving twice from the same inputs trivially agrees, the
embedding being pure). -/
theorem c5_set_id_idempotent_order_insensitive :
    (∀ (e : RawEntry) (f : List Feature) (i0 : String),
        set_id e f (some i0) = .ok (some i0)) ∧
    (∀ (e : RawEntry) (f : List Feature) (i : Option String),
        (set_id e f i).bind (set_id e f) = set_id e f i) ∧
    (∀ (e : RawEntry) (f1 f2 : List Feature), f1.Perm f2 →
        setIdResult e f1 = setIdResult e f2) := by
  refine ⟨fun e f i0 => rfl, fun e f i => ?_, fun e f1 f2 hperm => ?_⟩
  · cases i with
    | some i0 => rfl
    | none =>
      cases h : setIdResult e f with
      | error err => simp [set_id, h, Except.bind, Except.map]
      | ok i1 => simp [set_id, h, Except.bind, Except.map]
  · unfold setIdResult
    by_cases h1 : f1 = []
    · have h2 : f2 = [] := (hperm.symm.trans (h1 ▸ List.Perm.refl _)).eq_nil
      simp [h1, h2]
    · have h2 : f2 ≠ [] := fun h2 => h1 (hperm.trans (h2 ▸ List.Perm.refl _)).eq_nil
      rw [if_neg h1, if_neg h2]
      cases e with
      | many ss => rfl
      | one s =>
        have hc : sortStrings (f1.filterMap (·.collection)).dedup
            = sortStrings (f2.filterMap (·.collection)).dedup :=
          sortStrings_perm_eq (hperm.filterMap _).dedup
        have hi : sortStrings (f1.map (·.id)) = sortStrings (f2.map (·.id)) :=
          sortStrings_perm_eq (hperm.map _)
        simp only [hc, hi]

/-- Witness for C5: no-op on an existing id, idempotence, and permutation
invariance at two concrete feature orderings. -/
theorem c5_set_id_idempotent_order_insensitive_witness :
    set_id (.one stepF) [featA] (some "c1/workflow-mirror/itemA")
      = .ok (some "c1/workflow-mirror/itemA") ∧
    (set_id (.one stepF) [featA] none).bind (set_id (.one stepF) [featA])
      = set_id (.one stepF) [featA] none ∧
    setIdResult (.one stepF) [featA, featB] = setIdResult (.one stepF) [featB, featA] :=
  ⟨c5_set_id_idempotent_order_insensitive.1 (.one stepF) [featA] _,
   c5_set_id_idempotent_order_insensitive.2.1 (.one stepF) [featA] none,
   c5_set_id_idempotent_order_insensitive.2.2 (.one stepF) [featA, featB] [featB, featA]
     (List.Perm.swap _ _ _)⟩

/-- A concrete raw payload that constructs successfully. -/
def rawGood : RawPayload :=
  { process := .steps [.one { hasUploadOptions := true, hasTasks := true
                              workflow := some "mirror", replace := false
                              chainFilter := none, collections := none }]
    features := some [featA]
    id := some "c1/workflow-mirror/itemA" }

/-- A concrete raw payload with no id. -/
def rawNoId : RawPayload :=
  { process := .steps [.one { hasUploadOptions := true, hasTasks := true
                              workflow := some "mirror", replace := false
                              chainFilter := none, collections := none }]
    features := some [featA]
    id := none }

/-- C9: every successfully constructed Payload Envelope has an `id`
containing `workflow-`; and with `set_id_if_missing` unset, construction
from a raw mapping with no `id` always fails (the id-present invariant
holds unconditionally after construction). -/
theorem c9_constructed_id_invariant :
    (∀ (raw : RawPayload) (flag : Bool) (p : ProcessPayload),
        ProcessPayload.init raw flag = .ok p → containsSub p.id "workflow-" = true) ∧
    (∀ (raw : RawPayload), raw.id = none →
        ∀ (p : ProcessPayload), ProcessPayload.init raw false ≠ .ok p) := by
  constructor
  · intro raw flag p h
    unfold ProcessPayload.init at h
    dsimp only [] at h
    repeat' split at h
    all_goals first
      | exact Except.noConfusion h
      | (injection h with h2
         subst h2
         simp_all)
  · intro raw hid p h
    unfold ProcessPayload.init at h
    dsimp only [] at h
    simp only [computeIdOpt, hid, Bool.false_eq_true, if_false] at h
    repeat' split at h
    all_goals exact Except.noConfusion h

/-- Witness for C9: a successful concrete construction whose id carries
`workflow-`, and a concrete id-less construction that fails. -/
theorem c9_constructed_id_invariant_witness :
    containsSub "c1/workflow-mirror/itemA" "workflow-" = true ∧
    ProcessPayload.init rawNoId false ≠ .ok pSingle :=
  ⟨c9_constructed_id_invariant.1 rawGood true
      { id := "c1/workflow-mirror/itemA"
        step := { workflow := "mirror", replace := false
                  chainFilter := none, collections := none }
        rest := [], features := [featA] } rfl,
   c9_constructed_id_invariant.2 rawNoId rfl pSingle⟩

/-- A concrete launch oracle in which the conditional claim fails. -/
def envCond : LaunchEnv :=
  { payloadBucket := some "bkt", baseWorkflowArn := some "arn:sm:"
    uploadResult := none
    claimResult := .error (.clientError "ConditionalCheckFailedException")
    startResult := none, startedResult := none }

/-- C6: when the state store's conditional claim fails, the launch records
a skipping event, returns no identity, never calls the execution engine,
and raises nothing. -/
theorem c6_conditional_claim_skip (p : ProcessPayload) (env : LaunchEnv)
    (hb : env.payloadBucket.getD "" ≠ "") (ha : env.baseWorkflowArn.isSome)
    (hu : env.uploadResult = none)
    (hc : env.claimResult = .error (.clientError "ConditionalCheckFailedException")) :
    (launch p env).1 = .returned none ∧
    Action.skipping p.id ∈ (launch p env).2 ∧
    ∀ a ∈ (launch p env).2, a.isStart = false := by
  obtain ⟨base, hbase⟩ := Option.isSome_iff_exists.mp ha
  have hl : launch p env =
      (.returned none,
        [.uploadJson ("s3://" ++ env.payloadBucket.getD "" ++ "/" ++ p.id ++ "/input.json"),
         .claimProcessing p.id
           ("s3://" ++ env.payloadBucket.getD "" ++ "/" ++ p.id ++ "/input.json")
           (base ++ p.step.workflow),
         .skipping p.id]) := by
    unfold launch
    rw [if_neg hb, hbase, hu, hc]
    simp [handleLaunchExc]
  rw [hl]
  refine ⟨rfl, by simp, ?_⟩
  intro a ha2
  simp only [List.mem_cons, List.not_mem_nil, or_false] at ha2
  rcases ha2 with rfl | rfl | rfl <;> rfl

/-- Witness for C6 at a concrete payload and oracle. -/
theorem c6_conditional_claim_skip_witness :
    (launch pSingle envCond).1 = .returned none ∧
    Action.skipping pSingle.id ∈ (launch pSingle envCond).2 ∧
    ∀ a ∈ (launch pSingle envCond).2, a.isStart = false :=
  c6_conditional_claim_skip pSingle envCond (by simp [envCond]) (by simp [envCond])
    rfl rfl

/-- Behavior of `__call__`'s exception handlers on each class of
exception, given a trace so far holding no record-failed action:
`StateMachineDoesNotExist` records FAILED and turns terminal; any
non-`ClientError` records FAILED and re-raises; a `ClientError` of any
other (non-conditional) code re-raises with nothing recorded. -/
theorem handleLaunchExc_cases (i : String) (tr : List Action)
    (htr : ∀ a ∈ tr, a.isFailed = false) (e : PyExc) :
    (e = .clientError "StateMachineDoesNotExist" →
        (handleLaunchExc i tr e).1 = .terminalError ∧
        ∃ a ∈ (handleLaunchExc i tr e).2, a.isFailed = true) ∧
    (∀ m, e = .otherExc m →
        (handleLaunchExc i tr e).1 = .raised e ∧
        ∃ a ∈ (handleLaunchExc i tr e).2, a.isFailed = true) ∧
    (∀ c, e = .clientError c → c ≠ "ConditionalCheckFailedException" →
        c ≠ "StateMachineDoesNotExist" →
        (handleLaunchExc i tr e).1 = .raised e ∧
        ∀ a ∈ (handleLaunchExc i tr e).2, a.isFailed = false) := by
  refine ⟨?_, ?_, ?_⟩
  · rintro rfl
    refine ⟨by simp [handleLaunchExc], ?_⟩
    refine ⟨.failed i "StateMachineDoesNotExist", ?_, rfl⟩
    simp [handleLaunchExc]
  · rintro m rfl
    refine ⟨rfl, ?_⟩
    refine ⟨.failed i ("failed starting workflow (" ++ m ++ ")"), ?_, rfl⟩
    simp [handleLaunchExc]
  · rintro c rfl hc1 hc2
    refine ⟨by simp [handleLaunchExc, hc1, hc2], ?_⟩
    intro a ha
    simp only [handleLaunchExc, if_neg hc1, if_neg hc2] at ha
    exact htr a ha

/-- When the `try` block's first failure is `e` (and the bucket and arn
configuration are present), the launch is the corresponding handler
applied to the trace of the calls made so far, none of which is a
record-failed transition. -/
theorem launch_firstExc_handle (p : ProcessPayload) (env : LaunchEnv) (e : PyExc)
    (hb : env.payloadBucket.getD "" ≠ "") (ha : env.baseWorkflowArn.isSome)
    (he : launchFirstExc env = some e) :
    ∃ tr, launch p env = handleLaunchExc p.id tr e ∧ ∀ a ∈ tr, a.isFailed = false := by
  obtain ⟨base, hbase⟩ := Option.isSome_iff_exists.mp ha
  unfold launchFirstExc at he
  cases hu : env.uploadResult with
  | some e1 =>
    rw [hu] at he
    obtain rfl : e1 = e := by simpa using he
    refine ⟨[.uploadJson ("s3://" ++ env.payloadBucket.getD "" ++ "/" ++ p.id
        ++ "/input.json")], ?_, ?_⟩
    · simp only [launch, hbase, hu]
      rw [if_neg hb]
    · intro a ha2
      simp at ha2
      subst ha2
      rfl
  | none =>
    rw [hu] at he
    cases hcl : env.claimResult with
    | error e1 =>
      rw [hcl] at he
      obtain rfl : e1 = e := by simpa using he
      refine ⟨[.uploadJson ("s3://" ++ env.payloadBucket.getD "" ++ "/" ++ p.id
          ++ "/input.json"),
        .claimProcessing p.id ("s3://" ++ env.payloadBucket.getD "" ++ "/" ++ p.id
          ++ "/input.json") (base ++ p.step.workflow)], ?_, ?_⟩
      · simp only [launch, hbase, hu, hcl]
        rw [if_neg hb]
        exact rfl
      · intro a ha2
        simp at ha2
        rcases ha2 with rfl | rfl <;> rfl
    | ok name =>
      rw [hcl] at he
      cases hst : env.startResult with
      | some e1 =>
        rw [hst] at he
        obtain rfl : e1 = e := by simpa using he
        refine ⟨[.uploadJson ("s3://" ++ env.payloadBucket.getD "" ++ "/" ++ p.id
            ++ "/input.json"),
          .claimProcessing p.id ("s3://" ++ env.payloadBucket.getD "" ++ "/" ++ p.id
            ++ "/input.json") (base ++ p.step.workflow),
          .startExecution (base ++ p.step.workflow) name], ?_, ?_⟩
        · simp only [launch, hbase, hu, hcl, hst]
          rw [if_neg hb]
          exact rfl
        · intro a ha2
          simp at ha2
          rcases ha2 with rfl | rfl | rfl <;> rfl
      | none =>
        rw [hst] at he
        cases hsd : env.startedResult with
        | some e1 =>
          rw [hsd] at he
          obtain rfl : e1 = e := by simpa using he
          refine ⟨[.uploadJson ("s3://" ++ env.payloadBucket.getD "" ++ "/" ++ p.id
              ++ "/input.json"),
            .claimProcessing p.id ("s3://" ++ env.payloadBucket.getD "" ++ "/" ++ p.id
              ++ "/input.json") (base ++ p.step.workflow),
            .startExecution (base ++ p.step.workflow) name,
            .startedProcessing p.id (base ++ p.step.workflow ++ ":" ++ name)
              ("s3://" ++ env.payloadBucket.getD "" ++ "/" ++ p.id ++ "/input.json")],
            ?_, ?_⟩
          · simp only [launch, hbase, hu, hcl, hst, hsd]
            rw [if_neg hb]
            exact rfl
          · intro a ha2
            simp at ha2
            rcases ha2 with rfl | rfl | rfl | rfl <;> rfl
        | none =>
          rw [hsd] at he
          exact absurd he (by simp)

/-- An oracle whose claim call fails with an unclassified ClientError
code. -/
def envOther : LaunchEnv :=
  { payloadBucket := some "bkt", baseWorkflowArn := some "arn:sm:"
    uploadResult := none
    claimResult := .error (.clientError "ThrottlingException")
    startResult := none, startedResult := none }

/-- C1 counterexample: a launch attempt failing with a `ClientError`
whose code is neither the conditional-check nor the missing-state-machine
one (here `ThrottlingException`) is re-raised with NO record-failed
transition, contradicting "every other failure is recorded as FAILED"
(the bare `raise` in the `except ClientError` clause is not caught by the
sibling `except Exception` clause, so `wfem.failed` is never called). -/
theorem c1_counterexample_unrecorded_client_error :
    launchFirstExc envOther = some (.clientError "ThrottlingException") ∧
    (launch pSingle envOther).1 = .raised (.clientError "ThrottlingException") ∧
    ∀ a ∈ (launch pSingle envOther).2, a.isFailed = false := by
  refine ⟨rfl, by decide, by decide⟩

/-- C1 amended: for a launch whose configuration is present and whose
`try` block first fails with `e`: a `StateMachineDoesNotExist` engine
error is recorded as FAILED and raised as the distinct terminal failure;
every non-`ClientError` failure is recorded as FAILED and re-raised
(retryable); but a `ClientError` with any other (non-conditional) code is
re-raised retryable WITHOUT being recorded. The trace returned by
`launch` lists exactly the calls made before the error propagates. -/
theorem c1_amended_failure_recording (p : ProcessPayload) (env : LaunchEnv) (e : PyExc)
    (hb : env.payloadBucket.getD "" ≠ "") (ha : env.baseWorkflowArn.isSome)
    (he : launchFirstExc env = some e) :
    (e = .clientError "StateMachineDoesNotExist" →
        (launch p env).1 = .terminalError ∧
        ∃ a ∈ (launch p env).2, a.isFailed = true) ∧
    (∀ m, e = .otherExc m →
        (launch p env).1 = .raised e ∧
        ∃ a ∈ (launch p env).2, a.isFailed = true) ∧
    (∀ c, e = .clientError c → c ≠ "ConditionalCheckFailedException" →
        c ≠ "StateMachineDoesNotExist" →
        (launch p env).1 = .raised e ∧
        ∀ a ∈ (launch p env).2, a.isFailed = false) := by
  obtain ⟨tr, hl, htr⟩ := launch_firstExc_handle p env e hb ha he
  rw [hl]
  exact handleLaunchExc_cases p.id tr htr e

/-- An oracle whose claim call fails with `StateMachineDoesNotExist`. -/
def envSM : LaunchEnv :=
  { payloadBucket := some "bkt", baseWorkflowArn := some "arn:sm:"
    uploadResult := none
    claimResult := .error (.clientError "StateMachineDoesNotExist")
    startResult := none, startedResult := none }

/-- Witness for the amended C1: at a concrete missing-state-machine
failure, the launch turns terminal after recording FAILED. -/
theorem c1_amended_failure_recording_witness :
    (launch pSingle envSM).1 = .terminalError ∧
    ∃ a ∈ (launch pSingle envSM).2, a.isFailed = true :=
  (c1_amended_failure_recording pSingle envSM (.clientError "StateMachineDoesNotExist")
    (by decide) (by decide) rfl).1 rfl

/-- The exception handlers never produce a normal id-returning result. -/
theorem handleLaunchExc_fst_ne_returned_some (i : String) (tr : List Action)
    (e : PyExc) (j : String) :
    (handleLaunchExc i tr e).1 ≠ .returned (some j) := by
  unfold handleLaunchExc
  cases e with
  | clientError c =>
    by_cases h1 : c = "ConditionalCheckFailedException"
    · simp [h1]
    · by_cases h2 : c = "StateMachineDoesNotExist" <;> simp [h1, h2]
  | otherExc m => simp

/-- When a launch returns an identity, it is the payload's own id
(`__call__` returns `self["id"]`). -/
theorem launch_returned_eq_id (p : ProcessPayload) (env : LaunchEnv) (i : String)
    (h : (launch p env).1 = .returned (some i)) : i = p.id := by
  unfold launch at h
  dsimp only [] at h
  repeat' split at h
  all_goals first
    | exact absurd h (handleLaunchExc_fst_ne_returned_some _ _ _ _)
    | simp_all

/-- Invariant of the `ProcessPayloads.process` loop: launch attempts stay
duplicate-free, because every attempted id lands in one of the
`started`/`skipped`/`failed` lists, which the duplicate check consults
first. -/
theorem processGo_attempted_nodup (envOf : String → LaunchEnv)
    (states : String → Option StateEnum) (replace : Bool) :
    ∀ (ps : List ProcessPayload) (acc : BatchAcc),
      acc.attempted.Nodup →
      (∀ i ∈ acc.attempted, i ∈ acc.started ∨ i ∈ acc.skipped ∨ i ∈ acc.failed) →
      (processGo envOf states replace ps acc).attempted.Nodup
  | [], acc, h1, _ => by simpa [processGo, BatchResult.attempted] using h1
  | p :: rest, acc, h1, h2 => by
    unfold processGo
    by_cases hdup : p.id ∈ acc.started ∨ p.id ∈ acc.skipped ∨ p.id ∈ acc.failed
    · rw [if_pos hdup]
      exact processGo_attempted_nodup envOf states replace rest _ h1
        (fun i hi => h2 i hi)
    · rw [if_neg hdup]
      have hnotin : p.id ∉ acc.attempted := fun hmem => hdup (h2 _ hmem)
      have hnodup1 : (acc.attempted ++ [p.id]).Nodup := by
        simp [List.nodup_append, h1, hnotin]
      by_cases hretry : stateRetryable (states p.id) (replace || p.step.replace) = true
      · rw [if_pos hretry]
        cases hl : launch p (envOf p.id) with
        | mk r tr =>
          dsimp only []
          cases r with
          | terminalError =>
            refine processGo_attempted_nodup envOf states replace rest _ ?_ ?_
            · exact hnodup1
            intro i hi
            simp only [List.mem_append, List.mem_singleton] at hi
            rcases hi with hi | rfl
            · rcases h2 i hi with h | h | h
              · exact Or.inl (by simp [h])
              · exact Or.inr (Or.inl (by simp [h]))
              · exact Or.inr (Or.inr (by simp [h]))
            · exact Or.inr (Or.inr (by simp))
          | raised e => simpa [BatchResult.attempted] using hnodup1
          | returned oi =>
            cases oi with
            | none =>
              refine processGo_attempted_nodup envOf states replace rest _ ?_ ?_
              · exact hnodup1
              intro i hi
              simp only [List.mem_append, List.mem_singleton] at hi
              rcases hi with hi | rfl
              · rcases h2 i hi with h | h | h
                · exact Or.inl (by simp [h])
                · exact Or.inr (Or.inl (by simp [h]))
                · exact Or.inr (Or.inr (by simp [h]))
              · exact Or.inr (Or.inl (by simp))
            | some rid =>
              have hrid : rid = p.id :=
                launch_returned_eq_id p (envOf p.id) rid (by rw [hl])
              refine processGo_attempted_nodup envOf states replace rest _ ?_ ?_
              · exact hnodup1
              intro i hi
              simp only [List.mem_append, List.mem_singleton] at hi
              rcases hi with hi | rfl
              · rcases h2 i hi with h | h | h
                · exact Or.inl (by simp [h])
                · exact Or.inr (Or.inl (by simp [h]))
                · exact Or.inr (Or.inr (by simp [h]))
              · exact Or.inl (by simp [hrid])
      · rw [if_neg hretry]
        refine processGo_attempted_nodup envOf states replace rest _ ?_ ?_
        · exact h1
        intro i hi
        rcases h2 i hi with h | h | h
        · exact Or.inl (by simp [h])
        · exact Or.inr (Or.inl (by simp [h]))
        · exact Or.inr (Or.inr (by simp [h]))

/-- C2: within one `ProcessPayloads.process` call, an envelope whose
identity is already in the `started`, `skipped` or `failed` list is
recorded duplicated and added to `dropped`, with every other accumulator
field — in particular the launch-attempt record — unchanged; hence, from
the empty accumulator, the list of identities launch was attempted for
never holds the same identity twice. -/
theorem c2_batch_dedup_by_identity :
    (∀ (envOf : String → LaunchEnv) (states : String → Option StateEnum)
        (replace : Bool) (p : ProcessPayload) (rest : List ProcessPayload)
        (acc : BatchAcc),
        (p.id ∈ acc.started ∨ p.id ∈ acc.skipped ∨ p.id ∈ acc.failed) →
        processGo envOf states replace (p :: rest) acc =
          processGo envOf states replace rest
            { acc with dropped := acc.dropped ++ [p.id]
                       events := acc.events ++ [.duplicated p.id] }) ∧
    (∀ (envOf : String → LaunchEnv) (states : String → Option StateEnum)
        (replace : Bool) (payloads : List ProcessPayload),
        (processPayloads envOf states replace payloads).attempted.Nodup) := by
  constructor
  · intro envOf states replace p rest acc h
    conv_lhs => unfold processGo
    rw [if_pos h]
  · intro envOf states replace payloads
    exact processGo_attempted_nodup envOf states replace payloads BatchAcc.empty
      List.nodup_nil (by simp [BatchAcc.empty])

/-- An accumulator that has already started pSingle's identity. -/
def accDup : BatchAcc :=
  { BatchAcc.empty with started := ["c1/workflow-mirror/itemA"] }

/-- Witness for C2: a concrete duplicate is dropped without a launch
attempt, and a batch holding the same payload twice attempts it at most
once. -/
theorem c2_batch_dedup_by_identity_witness :
    processGo (fun _ => envSM) (fun _ => none) false [pSingle] accDup =
      processGo (fun _ => envSM) (fun _ => none) false []
        { accDup with dropped := accDup.dropped ++ [pSingle.id]
                      events := accDup.events ++ [.duplicated pSingle.id] } ∧
    (processPayloads (fun _ => envSM) (fun _ => none) false
        [pSingle, pSingle]).attempted.Nodup :=
  ⟨c2_batch_dedup_by_identity.1 (fun _ => envSM) (fun _ => none) false pSingle [] accDup
      (Or.inl (by simp [accDup, BatchAcc.empty, pSingle])),
   c2_batch_dedup_by_identity.2 (fun _ => envSM) (fun _ => none) false [pSingle, pSingle]⟩

/-- C10: in the `ProcessPayloads.process` loop, a launch ending in
`TerminalError` is caught and appended to `failed`, the loop continuing
with the rest; a launch raising any other exception makes the whole call
return that exception at once — the right-hand side names no later
envelope and is not the `finished` four-list mapping, so the rest of the
batch is never evaluated. -/
theorem c10_only_terminal_caught :
    (∀ (envOf : String → LaunchEnv) (states : String → Option StateEnum)
        (replace : Bool) (p : ProcessPayload) (rest : List ProcessPayload)
        (acc : BatchAcc) (tr : List Action),
        ¬(p.id ∈ acc.started ∨ p.id ∈ acc.skipped ∨ p.id ∈ acc.failed) →
        stateRetryable (states p.id) (replace || p.step.replace) = true →
        launch p (envOf p.id) = (.terminalError, tr) →
        processGo envOf states replace (p :: rest) acc =
          processGo envOf states replace rest
            { acc with failed := acc.failed ++ [p.id]
                       attempted := acc.attempted ++ [p.id]
                       events := acc.events ++ tr }) ∧
    (∀ (envOf : String → LaunchEnv) (states : String → Option StateEnum)
        (replace : Bool) (p : ProcessPayload) (rest : List ProcessPayload)
        (acc : BatchAcc) (e : PyExc) (tr : List Action),
        ¬(p.id ∈ acc.started ∨ p.id ∈ acc.skipped ∨ p.id ∈ acc.failed) →
        stateRetryable (states p.id) (replace || p.step.replace) = true →
        launch p (envOf p.id) = (.raised e, tr) →
        processGo envOf states replace (p :: rest) acc =
          .raised e { acc with attempted := acc.attempted ++ [p.id]
                               events := acc.events ++ tr }) := by
  constructor
  · intro envOf states replace p rest acc tr hdup hretry hl
    conv_lhs => unfold processGo
    rw [if_neg hdup, if_pos hretry, hl]
  · intro envOf states replace p rest acc e tr hdup hretry hl
    conv_lhs => unfold processGo
    rw [if_neg hdup, if_pos hretry, hl]

/-- Witness for C10: a concrete terminal failure is appended to `failed`
and the loop continues; a concrete unclassified failure aborts the batch
with `raised`. -/
theorem c10_only_terminal_caught_witness :
    processGo (fun _ => envSM) (fun _ => none) false [pSingle] BatchAcc.empty =
      processGo (fun _ => envSM) (fun _ => none) false []
        { BatchAcc.empty with
            failed := BatchAcc.empty.failed ++ [pSingle.id]
            attempted := BatchAcc.empty.attempted ++ [pSingle.id]
            events := BatchAcc.empty.events ++ (launch pSingle envSM).2 } ∧
    processGo (fun _ => envOther) (fun _ => none) false [pSingle] BatchAcc.empty =
      .raised (.clientError "ThrottlingException")
        { BatchAcc.empty with
            attempted := BatchAcc.empty.attempted ++ [pSingle.id]
            events := BatchAcc.empty.events ++ (launch pSingle envOther).2 } := by
  constructor
  · exact c10_only_terminal_caught.1 (fun _ => envSM) (fun _ => none) false pSingle []
      BatchAcc.empty (launch pSingle envSM).2 (by simp [BatchAcc.empty]) (by decide)
      (Prod.ext (by decide) rfl)
  · exact c10_only_terminal_caught.2 (fun _ => envOther) (fun _ => none) false pSingle []
      BatchAcc.empty (.clientError "ThrottlingException") (launch pSingle envOther).2
      (by simp [BatchAcc.empty]) (by decide) (Prod.ext (by decide) rfl)

/-- Closing flushes pending items: the sink ends up with everything sent
plus anything still buffered. -/
theorem snsClose_received (pub : SNSPublisher) :
    (snsClose pub).received = pub.sent.flatten ++ pub.buffer := by
  unfold snsClose SNSPublisher.received
  by_cases h : pub.buffer = [] <;> simp [h]

/-- An in-limit add succeeds and appends the item to the pending content
(sent plus buffered), whether or not it triggers a flush. -/
theorem snsAdd_ok (pub : SNSPublisher) (body : String) (attrs : List (String × String))
    (h : attrs.length ≤ 10) :
    ∃ pub', snsAdd pub body attrs = .ok pub' ∧
      pub'.sent.flatten ++ pub'.buffer
        = pub.sent.flatten ++ pub.buffer ++ [{ body := body, attrs := attrs }] := by
  unfold snsAdd
  rw [if_neg (Nat.not_lt.mpr h)]
  dsimp only []
  split
  · exact ⟨_, rfl, by simp⟩
  · exact ⟨_, rfl, by simp⟩

/-- Adding a sequence of in-limit items succeeds and appends them all to
the pending content, in order. -/
theorem snsAddAll_ok (items : List SNSMsg) :
    ∀ pub, (∀ it ∈ items, it.attrs.length ≤ 10) →
      ∃ pub', snsAddAll pub items = .ok pub' ∧
        pub'.sent.flatten ++ pub'.buffer = pub.sent.flatten ++ pub.buffer ++ items := by
  induction items with
  | nil => exact fun pub _ => ⟨pub, rfl, by simp⟩
  | cons it rest ih =>
    intro pub hall
    obtain ⟨pub1, h1, h2⟩ := snsAdd_ok pub it.body it.attrs (hall it (by simp))
    obtain ⟨pub2, h3, h4⟩ := ih pub1 (fun x hx => hall x (by simp [hx]))
    refine ⟨pub2, ?_, ?_⟩
    · unfold snsAddAll
      rw [List.foldlM_cons, h1]
      simpa [snsAddAll] using h3
    · rw [h4, h2]
      simp

/-- C8 (spec-modelled): a Topic Publisher add whose attribute mapping has
more than 10 entries fails with a validation error — the `Except.error`
result carries no successor state, so nothing is buffered and no send
call occurs; in-limit items are all accepted and, once the scope closes,
all appear in the downstream sink's received sequence. -/
theorem c8_topic_publisher_attr_limit :
    (∀ (pub : SNSPublisher) (body : String) (attrs : List (String × String)),
        10 < attrs.length →
        snsAdd pub body attrs = .error "too many message attributes") ∧
    (∀ (pub : SNSPublisher) (items : List SNSMsg),
        (∀ it ∈ items, it.attrs.length ≤ 10) →
        ∃ pub', snsAddAll pub items = .ok pub' ∧
          (snsClose pub').received = (snsClose pub).received ++ items) := by
  constructor
  · intro pub body attrs h
    unfold snsAdd
    rw [if_pos h]
  · intro pub items hall
    obtain ⟨pub', h1, h2⟩ := snsAddAll_ok items pub hall
    refine ⟨pub', h1, ?_⟩
    rw [snsClose_received, snsClose_received]
    exact h2

/-- A fresh concrete publisher. -/
def pub0 : SNSPublisher :=
  { topicArn := "arn:topic", batchSize := 3, buffer := [], sent := [] }

/-- Eleven message attributes (over the provider limit of 10). -/
def attrs11 : List (String × String) :=
  [("status0", "ok"), ("status1", "ok"), ("status2", "ok"), ("status3", "ok"),
   ("status4", "ok"), ("status5", "ok"), ("status6", "ok"), ("status7", "ok"),
   ("status8", "ok"), ("status9", "ok"), ("status10", "ok")]

/-- Three in-limit items. -/
def items3 : List SNSMsg :=
  [{ body := "0", attrs := [] }, { body := "1", attrs := [] },
   { body := "2", attrs := [] }]

/-- Witness for C8: the 11-attribute add fails at a concrete publisher;
three in-limit items all reach the sink. -/
theorem c8_topic_publisher_attr_limit_witness :
    snsAdd pub0 "too many attrs" attrs11 = .error "too many message attributes" ∧
    ∃ pub', snsAddAll pub0 items3 = .ok pub' ∧
      (snsClose pub').received = (snsClose pub0).received ++ items3 :=
  ⟨c8_topic_publisher_attr_limit.1 pub0 "too many attrs" attrs11 (by decide),
   c8_topic_publisher_attr_limit.2 pub0 items3 (by decide)⟩

end Cirrus
